import Mathlib

/-!
Verification of the HS Health-Smart rPPG vital-sign pipeline.

Shallow embedding of:
* `Buffer` (moving-average signal buffer), from `src/utils/healthAnalyzer.ts` lines 4-22;
* the `healthAnalyzer` estimator (`calculateEAR`, `extractGreenSignal`, `estimateVitals`),
  from `src/utils/healthAnalyzer.ts` lines 24-207;
* the scan-session state machine of `src/components/VitalScanner.tsx`
  (states INIT/SCANNING/COMPLETE, the `onResults` frame handler, the COMPLETE effect);
* the report-saving collaborator `handleScanComplete` of
  `src/pages/HospitalPatientDashboard.tsx` lines 656-689.

JS numbers are embedded as real numbers (`ℝ`) where the source computes with
`Math.sqrt`/`Math.sin`/division, and as rationals (`ℚ`) for the scan progress
counter; `Math.floor` is `Int.floor`.  Effectful inputs of the source
(`Date.now()`, `Math.random()`, `ctx.getImageData`) are passed as explicit
parameters.  Mutable fields of the `healthAnalyzer` singleton become an
explicit `AnalyzerState` threaded through `estimateVitals`.
-/

/-- Moving-average buffer, `class Buffer` of `src/utils/healthAnalyzer.ts`.
`size` is the capacity passed to the constructor, `data` the held samples. -/
structure Buffer where
  size : ℕ
  data : List ℝ

/-- `push(val)`: `this.data.push(val); if (this.data.length > this.size) this.data.shift();`
JS `Array.push` appends at the end, `Array.shift` removes the first element. -/
noncomputable def Buffer.push (b : Buffer) (val : ℝ) : Buffer :=
  if (b.data ++ [val]).length > b.size then { b with data := (b.data ++ [val]).tail }
  else { b with data := b.data ++ [val] }

/-- `average()`: `0` when empty, otherwise `reduce((a,b) => a+b, 0) / length`. -/
noncomputable def Buffer.average (b : Buffer) : ℝ :=
  if b.data.length = 0 then 0 else b.data.sum / b.data.length

/-- A finite sequence of `push` calls, in order. -/
noncomputable def Buffer.pushAll (b : Buffer) (xs : List ℝ) : Buffer :=
  xs.foldl Buffer.push b

/-- A MediaPipe face landmark: normalized coordinates.  Landmark arrays are
embedded as total functions from the index, matching JS array indexing at the
indices the analyzer reads (33, 133, 144, 151, 153, 158, 160). -/
structure Landmark where
  x : ℝ
  y : ℝ

namespace healthAnalyzer

/-- `Math.hypot(p1.x - p2.x, p1.y - p2.y)` — Euclidean distance of two landmarks,
the local `dist` of `calculateEAR`. -/
noncomputable def lmDist (p1 p2 : Landmark) : ℝ :=
  Real.sqrt ((p1.x - p2.x) ^ 2 + (p1.y - p2.y) ^ 2)

/-- `calculateEAR(landmarks)` of `src/utils/healthAnalyzer.ts` lines 86-97:
`(v1 + v2) / (2 * h)` with vertical distances (160,144), (158,153) and
horizontal distance (33,133). -/
noncomputable def calculateEAR (landmarks : ℕ → Landmark) : ℝ :=
  (lmDist (landmarks 160) (landmarks 144) + lmDist (landmarks 158) (landmarks 153)) /
    (2 * lmDist (landmarks 33) (landmarks 133))

/-- Uniform scaling of every landmark coordinate by `k`. -/
def scaleLandmarks (k : ℝ) (landmarks : ℕ → Landmark) : ℕ → Landmark :=
  fun i => ⟨k * (landmarks i).x, k * (landmarks i).y⟩

/-- The mutable fields of the `healthAnalyzer` singleton
(`hrBuffer`, `stressBuffer`, `lastEyeOpen`, `blinkCount`, `lastBlinkTime`). -/
structure AnalyzerState where
  hrBuffer : Buffer
  stressBuffer : Buffer
  lastEyeOpen : Prop
  blinkCount : ℕ
  lastBlinkTime : ℝ

/-- The initial singleton state of `src/utils/healthAnalyzer.ts` lines 26-32. -/
def initialState : AnalyzerState :=
  { hrBuffer := ⟨30, []⟩
    stressBuffer := ⟨50, []⟩
    lastEyeOpen := True
    blinkCount := 0
    lastBlinkTime := 0 }

/-- The snapshot object returned by `estimateVitals` (lines 197-205).
`bp` is the systolic/diastolic pair; the source renders it as the string
"SYS/DIA". -/
structure Vitals where
  heartRate : ℤ
  spo2 : ℤ
  hrv : ℤ
  stress : ℤ
  respiratoryRate : ℤ
  blinkRate : ℕ
  bp : ℤ × ℤ

open Classical in
/-- `estimateVitals(landmarks, timeMs, greenSignal, age)` of
`src/utils/healthAnalyzer.ts` lines 105-206, with the singleton state threaded
explicitly and the two effectful reads made parameters:
`now` is the `Date.now()` read at line 132 and `rand` the `Math.random()` at
line 192.  Returns the updated state and the vitals snapshot. -/
noncomputable def estimateVitals (st : AnalyzerState) (landmarks : ℕ → Landmark)
    (timeMs : ℝ) (greenSignal : ℝ) (age : ℝ) (now : ℝ) (rand : ℝ) :
    AnalyzerState × Vitals :=
  -- 1. Drowsiness / Blinks
  let ear := calculateEAR landmarks
  let isEyeOpen := ear > 0.25
  let blinkFires := st.lastEyeOpen ∧ ¬ isEyeOpen ∧ timeMs - st.lastBlinkTime > 200
  let blinkCount1 := if blinkFires then st.blinkCount + 1 else st.blinkCount
  let lastBlinkTime1 := if blinkFires then timeMs else st.lastBlinkTime
  -- 2. rPPG Signal Processing (Heart Rate)
  let hrBuffer1 := if greenSignal > 0 then st.hrBuffer.push greenSignal else st.hrBuffer
  let avgGreen := hrBuffer1.average
  let signalDiff := greenSignal - avgGreen
  let isLive := |signalDiff| > 0.5
  -- 3. Generate Data
  let baseHR : ℝ := 75
  let rPPGModulation := if isLive then max (-10) (min 10 (signalDiff / 5)) else 0
  let respiratoryEffect := Real.sin (now / 3000) * 3
  let heartRate0 : ℤ := ⌊baseHR + rPPGModulation + respiratoryEffect⌋
  let heartRate : ℤ := max 55 (min 100 heartRate0)
  let hrStressFactor := max 0 (((heartRate : ℝ) - 60) * 1.5)
  let variability := |signalDiff|
  let stabilityStress := min 40 (variability * 2)
  let calculatedStress := min 95 (max 10 (hrStressFactor + stabilityStress))
  let stressBuffer1 := st.stressBuffer.push calculatedStress
  let smoothStress := stressBuffer1.average
  let respiratoryRate : ℤ := ⌊14 + smoothStress / 20 + Real.sin (now / 5000)⌋
  let ageFactor := (age - 25) * 0.3
  let stressFactorSys := smoothStress * 0.4
  let stressFactorDia := smoothStress * 0.2
  let hrFactor := ((heartRate : ℝ) - 70) * 0.5
  let estSys := 110 + ageFactor + stressFactorSys + hrFactor
  let estDia := 70 + ageFactor * 0.5 + stressFactorDia + hrFactor * 0.5
  let noise := (rand - 0.5) * 2
  let systolic : ℤ := ⌊max 90 (min 180 (estSys + noise))⌋
  let diastolic : ℤ := ⌊max 60 (min 120 (estDia + noise))⌋
  (⟨hrBuffer1, stressBuffer1, isEyeOpen, blinkCount1, lastBlinkTime1⟩,
    { heartRate := heartRate
      spo2 := 98 + (if isLive then 0 else -1)
      hrv := ⌊(40 : ℝ) + |signalDiff| * 2⌋
      stress := ⌊smoothStress⌋
      respiratoryRate := respiratoryRate
      blinkRate := blinkCount1
      bp := (systolic, diastolic) })

/-- Green values visited by the pixel loop of `extractGreenSignal`
(lines 70-73): indices 1, 5, 9, … of the RGBA byte array; one loop iteration
per started 4-byte chunk (a missing green byte in a ragged final chunk reads
as the JS `undefined`, modelled as 0 — `getImageData` always returns a
4·w·h-length array, so this case never arises for real frames). -/
def greenValues : List ℝ → List ℝ
  | [] => []
  | [_] => [0]
  | _ :: g :: rest => g :: greenValues (rest.drop 2)
termination_by l => l.length
decreasing_by simp only [List.length_drop, List.length_cons]; omega

/-- An HTMLCanvasElement: dimensions plus `getContext('2d')`, which may return
null; the context's `getImageData(sx, sy, 20, 20)` may throw (cross-origin
taint), modelled as `Option`: `none` is a thrown exception. -/
structure Canvas where
  width : ℝ
  height : ℝ
  ctx : Option (ℝ → ℝ → Option (List ℝ))

/-- The `image` argument of `extractGreenSignal`: the `instanceof
HTMLCanvasElement` test fails on a video element. -/
inductive ImageSource
  | video
  | canvas (c : Canvas)

/-- `startX = Math.max(0, cx - patchedW / 2)` with `cx = landmarks[151].x * w`
and `patchedW = 20` (lines 54-60). -/
noncomputable def patchStartX (w : ℝ) (lx : ℝ) : ℝ := max 0 (lx * w - 20 / 2)

/-- `startY = Math.max(0, cy - patchedH / 2)` with `cy = landmarks[151].y * h`
and `patchedH = 20` (lines 55-61). -/
noncomputable def patchStartY (h : ℝ) (ly : ℝ) : ℝ := max 0 (ly * h - 20 / 2)

/-- `extractGreenSignal(image, landmarks)` of `src/utils/healthAnalyzer.ts`
lines 38-80: returns 0 for a non-canvas image, a null context, or a throwing
`getImageData`; otherwise the mean of the green channel over the sampled
patch (`count > 0 ? greenSum / count : 0`). -/
noncomputable def extractGreenSignal (image : ImageSource) (landmarks : ℕ → Landmark) : ℝ :=
  match image with
  | .video => 0
  | .canvas c =>
    match c.ctx with
    | none => 0
    | some getImageData =>
      let startX := patchStartX c.width (landmarks 151).x
      let startY := patchStartY c.height (landmarks 151).y
      match getImageData startX startY with
      | none => 0
      | some data =>
        let gs := greenValues data
        if gs.length > 0 then gs.sum / gs.length else 0

open Classical in
/-- `signalDiff = greenSignal - avgGreen` of lines 120-126: the deviation of
the current green sample from the (post-push) buffer average. -/
noncomputable def signalDiff (st : AnalyzerState) (greenSignal : ℝ) : ℝ :=
  greenSignal - (if greenSignal > 0 then st.hrBuffer.push greenSignal else st.hrBuffer).average

/-- `isLive = Math.abs(signalDiff) > 0.5` (line 129). -/
noncomputable def isLiveSignal (st : AnalyzerState) (greenSignal : ℝ) : Prop :=
  |signalDiff st greenSignal| > 0.5

end healthAnalyzer

/-- Scan session states of `VitalScanner.tsx` line 42. -/
inductive ScanState
  | INIT
  | SCANNING
  | COMPLETE
  deriving DecidableEq

/-- `INIT → SCANNING → COMPLETE` ordering used to state monotonicity. -/
def ScanState.rank : ScanState → ℕ
  | .INIT => 0
  | .SCANNING => 1
  | .COMPLETE => 2

/-- The scan session: `scanState` and `progress` state of `VitalScanner.tsx`
lines 42-46 (progress is a number advanced in steps of 0.2, embedded as `ℚ`). -/
structure ScanSession where
  scanState : ScanState
  progress : ℚ
  deriving DecidableEq

/-- One invocation of the `onResults` frame handler with a detected face
(`VitalScanner.tsx` lines 241-302): inside the `SCANNING` guard it samples
(extracts the green signal, runs `estimateVitals`) and then advances progress
by 0.2, switching to `COMPLETE` once progress has reached 100.  The returned
Bool records whether the estimator was invoked on this frame. -/
def onResultsStep (s : ScanSession) : ScanSession × Bool :=
  if s.scanState = ScanState.SCANNING then
    if s.progress ≥ 100 then (⟨ScanState.COMPLETE, 100⟩, true)
    else (⟨ScanState.SCANNING, s.progress + 1 / 5⟩, true)
  else (s, false)

/-- Scan sessions reachable from a fresh component mount: initial state
`⟨INIT, 0⟩` (lines 42-45), the one `INIT → SCANNING` transition when the
camera becomes ready (line 195), and `onResults` frames. -/
inductive ReachableSession : ScanSession → Prop
  | init : ReachableSession ⟨ScanState.INIT, 0⟩
  | camera (s : ScanSession) : ReachableSession s → s.scanState = ScanState.INIT →
      ReachableSession ⟨ScanState.SCANNING, s.progress⟩
  | frame (s : ScanSession) : ReachableSession s → ReachableSession (onResultsStep s).1

/-- `PatientStatus` of `src/types.ts`. -/
inductive PatientStatus
  | Stable
  | Watch
  | Critical
  deriving DecidableEq

/-- The `reportData` payload built by `handleScanComplete`
(`HospitalPatientDashboard.tsx` lines 662-669). -/
structure VitalsReportData where
  bpm : ℤ
  spo2 : ℤ
  stress : ℤ
  respiration : ℤ
  hrv : ℤ
  bp : ℤ × ℤ
  blinkRate : ℕ
  deriving DecidableEq

/-- `StabilityReport` of `src/types.ts` (the fields the vitals flow writes). -/
structure StabilityReport where
  id : String
  timestamp : ℤ
  reportType : Option String
  data : Option VitalsReportData
  aiAnalysis : String
  status : PatientStatus
  deriving DecidableEq

/-- The patient record, reduced to the field the report flow updates. -/
structure Patient where
  reports : List StabilityReport
  deriving DecidableEq

/-- `VitalSignRecord` of `src/types.ts`, as sent by the scanner's COMPLETE
effect: `{...vitals, timestamp: Date.now()}` (`VitalScanner.tsx` lines 67-72).
`bp` is `none` when the vitals carry no detected blood pressure (the dashboard
then falls back to `'120/80'` via `data.bp || '120/80'`). -/
structure VitalSignRecord where
  heartRate : ℤ
  spo2 : ℤ
  hrv : ℤ
  stress : ℤ
  respiratoryRate : ℤ
  blinkRate : ℕ
  bp : Option (ℤ × ℤ)
  timestamp : ℤ
  deriving DecidableEq

/-- The `newReport` built by `handleScanComplete`
(`HospitalPatientDashboard.tsx` lines 671-679): a `'VITALS'` report whose
status is `'Watch'` when `bpm > 100 || spo2 < 95 || stress > 70`, else
`'Stable'`.  `now` is the `Date.now()` call, `rid` the random id, `assessment`
the generated AI analysis text. -/
def vitalsReport (data : VitalSignRecord) (now : ℤ) (rid : String)
    (assessment : String) : StabilityReport :=
  let reportData : VitalsReportData :=
    { bpm := data.heartRate
      spo2 := data.spo2
      stress := data.stress
      respiration := data.respiratoryRate
      hrv := data.hrv
      bp := data.bp.getD (120, 80)
      blinkRate := data.blinkRate }
  { id := rid
    timestamp := now
    reportType := some ("VITALS")
    data := some reportData
    aiAnalysis := assessment
    status :=
      if reportData.bpm > 100 ∨ reportData.spo2 < 95 ∨ reportData.stress > 70
      then PatientStatus.Watch else PatientStatus.Stable }

/-- `handleScanComplete(data)` (`HospitalPatientDashboard.tsx` lines 656-689):
appends the vitals report to the patient's reports and persists the result
(`db.savePatient`); source comment: "Automatically save a Vitals Report". -/
def handleScanComplete (p : Patient) (data : VitalSignRecord) (now : ℤ)
    (rid : String) (assessment : String) : Patient :=
  { p with reports := p.reports ++ [vitalsReport data now rid assessment] }

/-- The scanner's COMPLETE effect (`VitalScanner.tsx` lines 64-74): `onComplete`
is invoked (after a 500ms timeout) exactly when the scan state is `COMPLETE`
and a callback was supplied — with no other condition. -/
def completeEffectFires (scanState : ScanState) (hasOnComplete : Bool) : Bool :=
  match scanState, hasOnComplete with
  | ScanState.COMPLETE, true => true
  | _, _ => false

/-- End-to-end flow from a scan state to the stored patient record, composing
the scanner's COMPLETE effect with the dashboard's `handleScanComplete`
(`onComplete` is wired to it at `HospitalPatientDashboard.tsx` line 1033).
There is no user-confirmation input anywhere in this flow. -/
def scanCompletePipeline (s : ScanState) (p : Patient) (v : VitalSignRecord)
    (now : ℤ) (rid : String) (assessment : String) : Patient :=
  if completeEffectFires s true then handleScanComplete p v now rid assessment else p

/-- Concrete eye landmarks for tests: horizontal eye axis of length 1
(33 ↦ (0,0), 133 ↦ (1,0)) and both vertical lid gaps equal to `v`
(160/144 at x = 0.3, 158/153 at x = 0.6).  Its EAR is `v` for `v ≥ 0`. -/
noncomputable def mkEyeLandmarks (v : ℝ) : ℕ → Landmark := fun i =>
  if i = 33 then ⟨0, 0⟩
  else if i = 133 then ⟨1, 0⟩
  else if i = 160 then ⟨0.3, 0⟩
  else if i = 144 then ⟨0.3, v⟩
  else if i = 158 then ⟨0.6, 0⟩
  else if i = 153 then ⟨0.6, v⟩
  else ⟨0, 0⟩

/-- Landmarks of an open eye (EAR 0.3 > threshold 0.25). -/
noncomputable def openEye : ℕ → Landmark := mkEyeLandmarks 0.3

/-- Landmarks of a closed eye (EAR 0.1 ≤ threshold 0.25). -/
noncomputable def closedEye : ℕ → Landmark := mkEyeLandmarks 0.1

/-- A concrete patient with no stored reports. -/
def emptyPatient : Patient := ⟨[]⟩

/-- A concrete vitals record as produced by a finished scan. -/
def sampleRecord : VitalSignRecord :=
  { heartRate := 72, spo2 := 98, hrv := 40, stress := 30,
    respiratoryRate := 16, blinkRate := 12, bp := some (118, 78), timestamp := 0 }

/-- Run the estimator over a sequence of frames (landmarks plus `timeMs`),
with zero green signal, default age 30, `now = 0`, `rand = 0`, keeping the
threaded singleton state. -/
noncomputable def runEstimator (st : healthAnalyzer.AnalyzerState)
    (frames : List ((ℕ → Landmark) × ℝ)) : healthAnalyzer.AnalyzerState :=
  frames.foldl (fun s f => (healthAnalyzer.estimateVitals s f.1 f.2 0 30 0 0).1) st

/-- The blink example of the spec: eye-open sequence
open, open, closed, closed, open at timestamps 0, 50, 100, 150, 400 ms. -/
noncomputable def demoFrames : List ((ℕ → Landmark) × ℝ) :=
  [(openEye, 0), (openEye, 50), (closedEye, 100), (closedEye, 150), (openEye, 400)]

/- ======================================================================== -/
/- Theorems                                                                 -/
/- ======================================================================== -/

namespace Buffer

theorem push_size (b : Buffer) (v : ℝ) : (b.push v).size = b.size := by
  unfold push
  split <;> rfl

theorem push_data_of_lt (b : Buffer) (v : ℝ) (h : b.data.length < b.size) :
    (b.push v).data = b.data ++ [v] := by
  unfold push
  rw [if_neg (by simp only [List.length_append, List.length_cons, List.length_nil]; omega)]

theorem push_data_of_ge (b : Buffer) (v : ℝ) (h : b.size ≤ b.data.length) :
    (b.push v).data = (b.data ++ [v]).tail := by
  unfold push
  rw [if_pos (by simp only [List.length_append, List.length_cons, List.length_nil]; omega)]

theorem push_length (b : Buffer) (v : ℝ) (h : b.data.length ≤ b.size) :
    (b.push v).data.length = min (b.data.length + 1) b.size := by
  rcases lt_or_eq_of_le h with hlt | heq
  · rw [push_data_of_lt b v hlt]
    simp only [List.length_append, List.length_cons, List.length_nil]
    omega
  · rw [push_data_of_ge b v (le_of_eq heq.symm)]
    simp only [List.length_tail, List.length_append, List.length_cons, List.length_nil]
    omega

theorem pushAll_size (b : Buffer) (xs : List ℝ) : (b.pushAll xs).size = b.size := by
  induction xs generalizing b with
  | nil => rfl
  | cons x xs ih =>
      show ((b.push x).pushAll xs).size = b.size
      rw [ih, push_size]

/-- Contents after a push sequence: the buffer holds the suffix of the full
pushed stream that fits in the capacity. -/
theorem pushAll_data (xs : List ℝ) (b : Buffer) (h : b.data.length ≤ b.size) :
    (b.pushAll xs).data = (b.data ++ xs).drop (b.data.length + xs.length - b.size) := by
  induction xs generalizing b with
  | nil =>
      simp only [pushAll, List.foldl_nil, List.append_nil, List.length_nil, Nat.add_zero]
      rw [Nat.sub_eq_zero_of_le h, List.drop_zero]
  | cons x xs ih =>
      show ((b.push x).pushAll xs).data = _
      have hinv : (b.push x).data.length ≤ (b.push x).size := by
        rw [push_size, push_length b x h]
        omega
      rw [ih (b.push x) hinv, push_size]
      rcases lt_or_eq_of_le h with hlt | heq
      · rw [push_data_of_lt b x hlt]
        have e : (b.data ++ [x]) ++ xs = b.data ++ x :: xs := by simp
        have e2 : (b.data ++ [x]).length = b.data.length + 1 := by simp
        rw [e2, e]
        congr 1
        simp only [List.length_cons]
        omega
      · have hge : b.size ≤ b.data.length := le_of_eq heq.symm
        rw [push_data_of_ge b x hge]
        have e1 : (b.data ++ [x]).tail = (b.data ++ [x]).drop 1 := (List.drop_one _).symm
        rw [e1]
        have e2 : ((b.data ++ [x]).drop 1).length = b.data.length := by simp
        rw [e2]
        have e3 : (b.data ++ [x]).drop 1 ++ xs = ((b.data ++ [x]) ++ xs).drop 1 :=
          (@List.drop_append_of_le_length ℝ (b.data ++ [x]) xs 1 (by simp)).symm
        rw [e3, List.drop_drop]
        have e4 : (b.data ++ [x]) ++ xs = b.data ++ x :: xs := by simp
        rw [e4]
        congr 1
        simp only [List.length_cons]
        omega

end Buffer

/-- C3: a `Buffer` of capacity `C`, starting from construction, holds exactly
`min(pushCount, C)` elements after any push sequence, never more than `C`,
and its contents are the `C` most recent pushed values in push order. -/
theorem C3_buffer_fifo (C : ℕ) (xs : List ℝ) :
    (Buffer.pushAll ⟨C, []⟩ xs).data.length = min xs.length C ∧
    (Buffer.pushAll ⟨C, []⟩ xs).data.length ≤ C ∧
    (Buffer.pushAll ⟨C, []⟩ xs).data = xs.drop (xs.length - C) := by
  have h := Buffer.pushAll_data xs ⟨C, []⟩ (by simp)
  simp only [List.nil_append, List.length_nil, Nat.zero_add] at h
  refine ⟨?_, ?_, h⟩
  · rw [h, List.length_drop]
    omega
  · rw [h, List.length_drop]
    omega

/-- C9: `average()` of an empty buffer is exactly 0, and the average of a
nonempty buffer all of whose elements equal `v` is exactly `v`. -/
theorem C9_average (b : Buffer) (v : ℝ) :
    (b.data = [] → b.average = 0) ∧
    (b.data ≠ [] → (∀ x ∈ b.data, x = v) → b.average = v) := by
  constructor
  · intro h
    unfold Buffer.average
    rw [if_pos (by rw [h]; rfl)]
  · intro hne hall
    unfold Buffer.average
    have hlen : b.data.length ≠ 0 := by
      simpa [List.length_eq_zero] using hne
    rw [if_neg hlen]
    have hsum : b.data.sum = b.data.length • v := List.sum_eq_card_nsmul b.data v hall
    rw [hsum, nsmul_eq_mul]
    field_simp

/-- Witness for C9 at concrete buffers. -/
theorem C9_average_witness :
    Buffer.average ⟨3, []⟩ = 0 ∧ Buffer.average ⟨3, [2, 2]⟩ = 2 :=
  ⟨(C9_average ⟨3, []⟩ 0).1 rfl,
   (C9_average ⟨3, [2, 2]⟩ 2).2 (by simp) (by simp)⟩

/-- Every reachable scan session's progress is a multiple of the 0.2 step,
capped at 100 (so at most 500 steps from the initial 0). -/
theorem reachable_progress (s : ScanSession) (h : ReachableSession s) :
    ∃ n : ℕ, n ≤ 500 ∧ s.progress = n / 5 := by
  induction h with
  | init => exact ⟨0, by norm_num, by norm_num⟩
  | camera s hs hINIT ih => exact ih
  | frame s hs ih =>
      obtain ⟨n, hn, hp⟩ := ih
      unfold onResultsStep
      by_cases hsc : s.scanState = ScanState.SCANNING
      · rw [if_pos hsc]
        by_cases hpr : s.progress ≥ 100
        · rw [if_pos hpr]
          exact ⟨500, le_refl _, by norm_num⟩
        · rw [if_neg hpr]
          push_neg at hpr
          have hlt : (n : ℚ) < 500 := by
            rw [hp] at hpr
            linarith
          have hnlt : n < 500 := by exact_mod_cast hlt
          refine ⟨n + 1, by omega, ?_⟩
          show s.progress + 1 / 5 = ((n + 1 : ℕ) : ℚ) / 5
          rw [hp]
          push_cast
          ring
      · rw [if_neg hsc]
        exact ⟨n, hn, hp⟩

/-- C6: on every `onResults` frame of a reachable session, the scan state
moves only forward along INIT → SCANNING → COMPLETE (the only change a frame
makes is SCANNING → COMPLETE), the progress value never decreases, and once
the session is COMPLETE a frame neither samples (no estimator invocation) nor
changes the session. -/
theorem C6_scan_monotone (s : ScanSession) (h : ReachableSession s) :
    s.scanState.rank ≤ (onResultsStep s).1.scanState.rank ∧
    ((onResultsStep s).1.scanState = s.scanState ∨
      (s.scanState = ScanState.SCANNING ∧
        (onResultsStep s).1.scanState = ScanState.COMPLETE)) ∧
    s.progress ≤ (onResultsStep s).1.progress ∧
    (s.scanState = ScanState.COMPLETE → onResultsStep s = (s, false)) := by
  obtain ⟨n, hn, hp⟩ := reachable_progress s h
  unfold onResultsStep
  by_cases hsc : s.scanState = ScanState.SCANNING
  · rw [if_pos hsc]
    by_cases hpr : s.progress ≥ 100
    · rw [if_pos hpr]
      refine ⟨?_, Or.inr ⟨hsc, rfl⟩, ?_, ?_⟩
      · rw [hsc]; exact Nat.le_succ 1
      · show s.progress ≤ 100
        rw [hp]
        have : (n : ℚ) ≤ 500 := by exact_mod_cast hn
        linarith
      · intro hc; rw [hsc] at hc; exact absurd hc (by simp)
    · rw [if_neg hpr]
      refine ⟨?_, Or.inl (by rw [hsc]), ?_, ?_⟩
      · rw [hsc]
      · show s.progress ≤ s.progress + 1 / 5
        linarith
      · intro hc; rw [hsc] at hc; exact absurd hc (by simp)
  · rw [if_neg hsc]
    exact ⟨le_refl _, Or.inl rfl, le_refl _, fun _ => rfl⟩

/-- Witness for C6 at the reachable session `⟨SCANNING, 0⟩`. -/
theorem C6_scan_monotone_witness :
    (ScanSession.mk ScanState.SCANNING 0).progress ≤
      (onResultsStep ⟨ScanState.SCANNING, 0⟩).1.progress ∧
    (ScanSession.mk ScanState.SCANNING 0).scanState.rank ≤
      (onResultsStep ⟨ScanState.SCANNING, 0⟩).1.scanState.rank := by
  have h : ReachableSession ⟨ScanState.SCANNING, 0⟩ :=
    ReachableSession.camera ⟨ScanState.INIT, 0⟩ ReachableSession.init rfl
  exact ⟨(C6_scan_monotone ⟨ScanState.SCANNING, 0⟩ h).2.2.1,
         (C6_scan_monotone ⟨ScanState.SCANNING, 0⟩ h).1⟩

/-- C2: for every call to the continuous estimator — any state, landmark set,
timestamp, green-channel sample, age (and any `Date.now()`/`Math.random()`
values) — the returned heart rate lies within [55, 100] bpm. -/
theorem C2_heartRate_bounds (st : healthAnalyzer.AnalyzerState)
    (lm : ℕ → Landmark) (t g a now r : ℝ) :
    55 ≤ (healthAnalyzer.estimateVitals st lm t g a now r).2.heartRate ∧
    (healthAnalyzer.estimateVitals st lm t g a now r).2.heartRate ≤ 100 := by
  constructor
  · simp only [healthAnalyzer.estimateVitals]
    exact le_max_left _ _
  · simp only [healthAnalyzer.estimateVitals]
    exact max_le (by norm_num) (min_le_left _ _)

/-- C8: for every call to the continuous estimator, regardless of inputs and
of the random jitter, the systolic component lies within [90, 180] mmHg and
the diastolic component within [60, 120] mmHg. -/
theorem C8_bp_bounds (st : healthAnalyzer.AnalyzerState)
    (lm : ℕ → Landmark) (t g a now r : ℝ) :
    90 ≤ (healthAnalyzer.estimateVitals st lm t g a now r).2.bp.1 ∧
    (healthAnalyzer.estimateVitals st lm t g a now r).2.bp.1 ≤ 180 ∧
    60 ≤ (healthAnalyzer.estimateVitals st lm t g a now r).2.bp.2 ∧
    (healthAnalyzer.estimateVitals st lm t g a now r).2.bp.2 ≤ 120 := by
  refine ⟨?_, ?_, ?_, ?_⟩
  · simp only [healthAnalyzer.estimateVitals]
    exact Int.le_floor.mpr (by push_cast; exact le_max_left _ _)
  · simp only [healthAnalyzer.estimateVitals]
    refine le_trans (Int.floor_le_floor (max_le ?_ (min_le_left _ _))) ?_
    · norm_num
    · norm_num
  · simp only [healthAnalyzer.estimateVitals]
    exact Int.le_floor.mpr (by push_cast; exact le_max_left _ _)
  · simp only [healthAnalyzer.estimateVitals]
    refine le_trans (Int.floor_le_floor (max_le ?_ (min_le_left _ _))) ?_
    · norm_num
    · norm_num

open Classical in
/-- C10: the returned spo2 is exactly 98 when the live-signal condition
`|signalDiff| > 0.5` holds and exactly 97 otherwise; in particular it is
always one of 97 and 98. -/
theorem C10_spo2 (st : healthAnalyzer.AnalyzerState)
    (lm : ℕ → Landmark) (t g a now r : ℝ) :
    ((healthAnalyzer.estimateVitals st lm t g a now r).2.spo2
        = if healthAnalyzer.isLiveSignal st g then 98 else 97) ∧
    ((healthAnalyzer.estimateVitals st lm t g a now r).2.spo2 = 97 ∨
      (healthAnalyzer.estimateVitals st lm t g a now r).2.spo2 = 98) := by
  have key : (healthAnalyzer.estimateVitals st lm t g a now r).2.spo2
      = if healthAnalyzer.isLiveSignal st g then 98 else 97 := by
    simp only [healthAnalyzer.estimateVitals, healthAnalyzer.isLiveSignal,
      healthAnalyzer.signalDiff]
    by_cases h : |g - (if g > 0 then st.hrBuffer.push g else st.hrBuffer).average| > 0.5
    · rw [if_pos h, if_pos h]
      norm_num
    · rw [if_neg h, if_neg h]
      norm_num
  refine ⟨key, ?_⟩
  rw [key]
  by_cases h : healthAnalyzer.isLiveSignal st g
  · right
    rw [if_pos h]
  · left
    rw [if_neg h]

/-- Scaling both landmarks by `k ≥ 0` scales their Euclidean distance by `k`. -/
theorem lmDist_scale (k : ℝ) (hk : 0 ≤ k) (p q : Landmark) :
    healthAnalyzer.lmDist ⟨k * p.x, k * p.y⟩ ⟨k * q.x, k * q.y⟩
      = k * healthAnalyzer.lmDist p q := by
  unfold healthAnalyzer.lmDist
  rw [show (k * p.x - k * q.x) ^ 2 + (k * p.y - k * q.y) ^ 2
      = k ^ 2 * ((p.x - q.x) ^ 2 + (p.y - q.y) ^ 2) by ring]
  rw [Real.sqrt_mul (sq_nonneg k), Real.sqrt_sq hk]

/-- C7: `calculateEAR` is invariant under uniform scaling of all landmark
coordinates by any positive factor. -/
theorem C7_ear_scale_invariant (lm : ℕ → Landmark) (k : ℝ) (hk : 0 < k) :
    healthAnalyzer.calculateEAR (healthAnalyzer.scaleLandmarks k lm)
      = healthAnalyzer.calculateEAR lm := by
  unfold healthAnalyzer.calculateEAR healthAnalyzer.scaleLandmarks
  rw [lmDist_scale k hk.le, lmDist_scale k hk.le, lmDist_scale k hk.le]
  rw [show k * healthAnalyzer.lmDist (lm 160) (lm 144)
        + k * healthAnalyzer.lmDist (lm 158) (lm 153)
      = k * (healthAnalyzer.lmDist (lm 160) (lm 144)
        + healthAnalyzer.lmDist (lm 158) (lm 153)) by ring]
  rw [show 2 * (k * healthAnalyzer.lmDist (lm 33) (lm 133))
      = k * (2 * healthAnalyzer.lmDist (lm 33) (lm 133)) by ring]
  exact mul_div_mul_left _ _ (ne_of_gt hk)

/-- Witness for C7: scaling the concrete open-eye landmarks by 2 leaves the
EAR unchanged. -/
theorem C7_ear_scale_invariant_witness :
    (0 : ℝ) < 2 ∧
    healthAnalyzer.calculateEAR (healthAnalyzer.scaleLandmarks 2 openEye)
      = healthAnalyzer.calculateEAR openEye :=
  ⟨by norm_num, C7_ear_scale_invariant openEye 2 (by norm_num)⟩

open Classical in
/-- Blink-counter update of one `estimateVitals` call (lines 110-116):
increments exactly when the eye was open, the EAR fell to the 0.25 threshold
or below, and strictly more than 200ms have passed since `lastBlinkTime`. -/
theorem estimateVitals_blinkCount (st : healthAnalyzer.AnalyzerState)
    (lm : ℕ → Landmark) (t g a now r : ℝ) :
    (healthAnalyzer.estimateVitals st lm t g a now r).1.blinkCount
      = if st.lastEyeOpen ∧ ¬(healthAnalyzer.calculateEAR lm > 0.25)
            ∧ t - st.lastBlinkTime > 200
        then st.blinkCount + 1 else st.blinkCount := rfl

open Classical in
/-- `lastBlinkTime` update of one `estimateVitals` call: set to `timeMs`
exactly when a blink is counted. -/
theorem estimateVitals_lastBlinkTime (st : healthAnalyzer.AnalyzerState)
    (lm : ℕ → Landmark) (t g a now r : ℝ) :
    (healthAnalyzer.estimateVitals st lm t g a now r).1.lastBlinkTime
      = if st.lastEyeOpen ∧ ¬(healthAnalyzer.calculateEAR lm > 0.25)
            ∧ t - st.lastBlinkTime > 200
        then t else st.lastBlinkTime := rfl

/-- `lastEyeOpen` update of one `estimateVitals` call (line 117): the current
eye-open predicate. -/
theorem estimateVitals_lastEyeOpen (st : healthAnalyzer.AnalyzerState)
    (lm : ℕ → Landmark) (t g a now r : ℝ) :
    (healthAnalyzer.estimateVitals st lm t g a now r).1.lastEyeOpen
      = (healthAnalyzer.calculateEAR lm > 0.25) := rfl

/-- The EAR of the axis-aligned test landmarks is the lid gap `v`. -/
theorem calculateEAR_mkEyeLandmarks (v : ℝ) (hv : 0 ≤ v) :
    healthAnalyzer.calculateEAR (mkEyeLandmarks v) = v := by
  have h33 : mkEyeLandmarks v 33 = ⟨0, 0⟩ := by norm_num [mkEyeLandmarks]
  have h133 : mkEyeLandmarks v 133 = ⟨1, 0⟩ := by norm_num [mkEyeLandmarks]
  have h160 : mkEyeLandmarks v 160 = ⟨0.3, 0⟩ := by norm_num [mkEyeLandmarks]
  have h144 : mkEyeLandmarks v 144 = ⟨0.3, v⟩ := by norm_num [mkEyeLandmarks]
  have h158 : mkEyeLandmarks v 158 = ⟨0.6, 0⟩ := by norm_num [mkEyeLandmarks]
  have h153 : mkEyeLandmarks v 153 = ⟨0.6, v⟩ := by norm_num [mkEyeLandmarks]
  unfold healthAnalyzer.calculateEAR
  rw [h33, h133, h160, h144, h158, h153]
  unfold healthAnalyzer.lmDist
  dsimp only
  rw [show ((0.3:ℝ) - 0.3) ^ 2 + (0 - v) ^ 2 = v ^ 2 by ring]
  rw [show ((0.6:ℝ) - 0.6) ^ 2 + (0 - v) ^ 2 = v ^ 2 by ring]
  rw [show ((0:ℝ) - 1) ^ 2 + (0 - 0) ^ 2 = 1 by ring]
  rw [Real.sqrt_sq hv, Real.sqrt_one]
  ring

open Classical in
/-- C4 (amended): an open-to-closed EAR transition increments `blinkCount` by
exactly 1 if and only if it occurs strictly more than 200ms after
`lastBlinkTime` (the time of the previously counted blink, initialized to 0),
in which case `lastBlinkTime` is set to the transition time; any other call
leaves `blinkCount` unchanged. -/
theorem C4_blink_debounce (st : healthAnalyzer.AnalyzerState)
    (lm : ℕ → Landmark) (t g a now r : ℝ) :
    ((healthAnalyzer.estimateVitals st lm t g a now r).1.blinkCount
      = if st.lastEyeOpen ∧ ¬(healthAnalyzer.calculateEAR lm > 0.25)
            ∧ t - st.lastBlinkTime > 200
        then st.blinkCount + 1 else st.blinkCount) ∧
    ((healthAnalyzer.estimateVitals st lm t g a now r).1.lastBlinkTime
      = if st.lastEyeOpen ∧ ¬(healthAnalyzer.calculateEAR lm > 0.25)
            ∧ t - st.lastBlinkTime > 200
        then t else st.lastBlinkTime) :=
  ⟨estimateVitals_blinkCount st lm t g a now r,
   estimateVitals_lastBlinkTime st lm t g a now r⟩

/-- C4 counterexample: running the estimator from the initial singleton state
over the spec's example frames (open, open, closed, closed, open at 0, 50,
100, 150, 400 ms) records 0 blinks, not the claimed 1: the open-to-closed
transition at t = 100 is only 100ms after the initial `lastBlinkTime` of 0,
so the 200ms debounce rejects it. -/
theorem C4_blink_counterexample :
    (runEstimator healthAnalyzer.initialState demoFrames).blinkCount = 0 ∧
    (runEstimator healthAnalyzer.initialState demoFrames).blinkCount ≠ 1 := by
  have eopen : healthAnalyzer.calculateEAR openEye = 0.3 := by
    unfold openEye
    exact calculateEAR_mkEyeLandmarks 0.3 (by norm_num)
  have eclosed : healthAnalyzer.calculateEAR closedEye = 0.1 := by
    unfold closedEye
    exact calculateEAR_mkEyeLandmarks 0.1 (by norm_num)
  have hopen : healthAnalyzer.calculateEAR openEye > 0.25 := by
    rw [eopen]; norm_num
  have hclosed : ¬ (healthAnalyzer.calculateEAR closedEye > 0.25) := by
    rw [eclosed]; norm_num
  have hrun : (runEstimator healthAnalyzer.initialState demoFrames).blinkCount = 0 := by
    simp only [runEstimator, demoFrames, List.foldl_cons, List.foldl_nil]
    set A := (healthAnalyzer.estimateVitals healthAnalyzer.initialState openEye 0 0 30 0 0).1
      with hA
    set B := (healthAnalyzer.estimateVitals A openEye 50 0 30 0 0).1 with hB
    set C := (healthAnalyzer.estimateVitals B closedEye 100 0 30 0 0).1 with hC
    set D := (healthAnalyzer.estimateVitals C closedEye 150 0 30 0 0).1 with hD
    -- step 1: eye stays open, nothing counted
    have hAc : A.blinkCount = 0 := by
      rw [hA, estimateVitals_blinkCount]
      rw [if_neg (fun h => h.2.1 hopen)]
      rfl
    have hAt : A.lastBlinkTime = 0 := by
      rw [hA, estimateVitals_lastBlinkTime]
      rw [if_neg (fun h => h.2.1 hopen)]
      rfl
    -- step 2: eye still open, nothing counted
    have hBc : B.blinkCount = 0 := by
      rw [hB, estimateVitals_blinkCount]
      rw [if_neg (fun h => h.2.1 hopen), hAc]
    have hBt : B.lastBlinkTime = 0 := by
      rw [hB, estimateVitals_lastBlinkTime]
      rw [if_neg (fun h => h.2.1 hopen), hAt]
    -- step 3: open-to-closed transition at t = 100, 100 - 0 is not > 200
    have h3 : ¬ (B.lastEyeOpen ∧ ¬(healthAnalyzer.calculateEAR closedEye > 0.25)
        ∧ (100 : ℝ) - B.lastBlinkTime > 200) := by
      intro h
      have := h.2.2
      rw [hBt] at this
      norm_num at this
    have hCc : C.blinkCount = 0 := by
      rw [hC, estimateVitals_blinkCount]
      rw [if_neg h3, hBc]
    have hCt : C.lastBlinkTime = 0 := by
      rw [hC, estimateVitals_lastBlinkTime]
      rw [if_neg h3, hBt]
    have hCe : C.lastEyeOpen = (healthAnalyzer.calculateEAR closedEye > 0.25) := by
      rw [hC, estimateVitals_lastEyeOpen]
    -- step 4: eye already closed, no transition
    have h4 : ¬ (C.lastEyeOpen ∧ ¬(healthAnalyzer.calculateEAR closedEye > 0.25)
        ∧ (150 : ℝ) - C.lastBlinkTime > 200) := by
      intro h
      have h1 := h.1
      rw [hCe] at h1
      exact hclosed h1
    have hDc : D.blinkCount = 0 := by
      rw [hD, estimateVitals_blinkCount]
      rw [if_neg h4, hCc]
    have hDe : D.lastEyeOpen = (healthAnalyzer.calculateEAR closedEye > 0.25) := by
      rw [hD, estimateVitals_lastEyeOpen]
    -- step 5: closed-to-open transition, not a blink start
    have h5 : ¬ (D.lastEyeOpen ∧ ¬(healthAnalyzer.calculateEAR openEye > 0.25)
        ∧ (400 : ℝ) - D.lastBlinkTime > 200) := by
      intro h
      have h1 := h.1
      rw [hDe] at h1
      exact hclosed h1
    rw [estimateVitals_blinkCount]
    rw [if_neg h5, hDc]
  exact ⟨hrun, by rw [hrun]; norm_num⟩

/-- C5 counterexample: for the in-range landmark position (1, 1) on a
100×100 frame, the clamped patch origin is 90, so the 20-pixel patch ends at
110 and reads past the frame's right edge: the origin clamp does not keep
the patch inside the frame bounds. -/
theorem C5_clamp_counterexample :
    ((0 : ℝ) ≤ 1 ∧ (1 : ℝ) ≤ 1) ∧
    healthAnalyzer.patchStartX 100 1 = 90 ∧
    healthAnalyzer.patchStartX 100 1 + 20 > 100 := by
  refine ⟨⟨by norm_num, le_refl 1⟩, ?_, ?_⟩
  · unfold healthAnalyzer.patchStartX
    rw [max_eq_right (by norm_num : (0:ℝ) ≤ 1 * 100 - 20 / 2)]
    norm_num
  · unfold healthAnalyzer.patchStartX
    rw [max_eq_right (by norm_num : (0:ℝ) ≤ 1 * 100 - 20 / 2)]
    norm_num

/-- C5 (amended): the patch origin is clamped below at 0 only — the patch
never starts at negative coordinates, but may extend past the right/bottom
frame edge — and every failure path (non-canvas image, null context,
throwing pixel read) returns 0 instead of raising. -/
theorem C5_clamp_and_failure (w h lx ly : ℝ) (lm : ℕ → Landmark) :
    0 ≤ healthAnalyzer.patchStartX w lx ∧
    0 ≤ healthAnalyzer.patchStartY h ly ∧
    healthAnalyzer.extractGreenSignal healthAnalyzer.ImageSource.video lm = 0 ∧
    healthAnalyzer.extractGreenSignal
      (healthAnalyzer.ImageSource.canvas ⟨w, h, none⟩) lm = 0 ∧
    healthAnalyzer.extractGreenSignal
      (healthAnalyzer.ImageSource.canvas ⟨w, h, some fun _ _ => none⟩) lm = 0 :=
  ⟨le_max_left 0 _, le_max_left 0 _, rfl, rfl, rfl⟩

/-- C1 counterexample: a COMPLETE scan on a patient with no stored reports
ends with one persisted VITALS report, although no user-confirmation action
exists anywhere in the COMPLETE-to-save flow — the result is auto-submitted. -/
theorem C1_counterexample :
    emptyPatient.reports.length = 0 ∧
    (scanCompletePipeline ScanState.COMPLETE emptyPatient sampleRecord 0
      "r1" "routine vitals").reports.length = 1 :=
  ⟨rfl, rfl⟩

/-- C1 (amended): when a scan session reaches COMPLETE (with the dashboard's
callback wired), the vitals record is handed to the report-creation
collaborator automatically — after a 500ms delay but with no user
confirmation — and exactly one VITALS report is appended to the patient
record. -/
theorem C1_auto_submit (p : Patient) (v : VitalSignRecord) (now : ℤ)
    (rid assessment : String) :
    completeEffectFires ScanState.COMPLETE true = true ∧
    (scanCompletePipeline ScanState.COMPLETE p v now rid assessment).reports
      = p.reports ++ [vitalsReport v now rid assessment] :=
  ⟨rfl, rfl⟩
